import Mathlib

/-!
Shallow embedding of the weaving-test capture-and-measurement core.

Camera synchronizer: `src/hardware_controllers/cameras_controller/cameras_controller.py`
(class `CamerasController`).  The Python class guards a readiness flag, a
currently-selected light type and one "pictures available" `Event` per light
type with locks; here the sequential semantics of each operation is modelled
as a function on an explicit state record.  Locks and simulated `sleep`
delays are abstracted away (single-thread semantics); exceptions become an
explicit error sum, and each operation returns the state at the point the
exception was raised (mutations that precede a `raise` persist, exactly as
in Python).

Surface pipeline: `src/weaving_app/services/surface.py`
(class `SurfaceMovementService`) and `src/weaving_app/services/velocity.py`.
Floats are modelled as `Rat`; `np.percentile` (default linear interpolation)
and `pandas.Series.rolling(window).mean()` are embedded directly.
-/

namespace Weaving

/-- `LightType` enumeration (GREEN, BLUE) used by `CamerasController`. -/
inductive LightType where
  | GREEN
  | BLUE
deriving DecidableEq, Repr

/-- `CameraPosition` enumeration (LEFT, RIGHT) used by `CamerasController`. -/
inductive CameraPosition where
  | LEFT
  | RIGHT
deriving DecidableEq, Repr

/-- The exceptions raised by `CamerasController`
(`errors` package of `cameras_controller`). -/
inductive CamerasError where
  | camerasNotReady
  | lightTypeNotDefined
  | triggerFailed
  | picturesNotAvailable
  | pictureNotFound
deriving DecidableEq, Repr

/-- The mutable synchronizer state of a `CamerasController` instance
(`__init__`): readiness flag, selected light type, and the two
per-light-type "pictures available" events (an `Event` is a boolean flag). -/
structure CamerasState where
  cameras_ready : Bool
  light_type : Option LightType
  green_pictures_available : Bool
  blue_pictures_available : Bool
deriving DecidableEq, Repr

/-- The state produced by `CamerasController.__init__`. -/
def CamerasState.init : CamerasState :=
  { cameras_ready := false
    light_type := none
    green_pictures_available := false
    blue_pictures_available := false }

/-- `Event.is_set()` for the pictures-available event selected by a light
type (`_green_pictures_available` / `_blue_pictures_available`). -/
def event_is_set (s : CamerasState) : LightType → Bool
  | .GREEN => s.green_pictures_available
  | .BLUE => s.blue_pictures_available

/-- `Event.set()` on the pictures-available event of a light type. -/
def event_set (s : CamerasState) : LightType → CamerasState
  | .GREEN => { s with green_pictures_available := true }
  | .BLUE => { s with blue_pictures_available := true }

/-- `Event.clear()` on the pictures-available event of a light type. -/
def event_clear (s : CamerasState) : LightType → CamerasState
  | .GREEN => { s with green_pictures_available := false }
  | .BLUE => { s with blue_pictures_available := false }

/-- `CamerasController._get_pictures_available_event_by_light_type`:
dispatches on the light type to one of the two events (here: to the key that
names the event); any other value — in particular `None`, the value of
`self._light_type` before `set_light_type` — raises
`LightTypeNotDefinedError`. -/
def get_pictures_available_event_by_light_type (light_type : Option LightType) :
    Except CamerasError LightType :=
  match light_type with
  | some .GREEN => .ok .GREEN
  | some .BLUE => .ok .BLUE
  | none => .error .lightTypeNotDefined

/-- `CamerasController.open_cameras`: sleeps (abstracted) and sets the
readiness flag under the readiness lock. -/
def open_cameras (s : CamerasState) : CamerasState :=
  { s with cameras_ready := true }

/-- `CamerasController._raise_on_cameras_not_ready`: raises
`CamerasNotReadyError` when the readiness flag is unset. -/
def raise_on_cameras_not_ready (s : CamerasState) : Except CamerasError Unit :=
  if s.cameras_ready then .ok () else .error .camerasNotReady

/-- `CamerasController.set_light_type`: readiness gate, then record the
light type under its lock. -/
def set_light_type (light_type : LightType) (s : CamerasState) :
    Except CamerasError Unit × CamerasState :=
  match raise_on_cameras_not_ready s with
  | .error e => (.error e, s)
  | .ok _ => (.ok (), { s with light_type := some light_type })

/-- `CamerasController.trigger`: readiness gate; under the global trigger
lock and the light-type lock, look up the current light type's event; if it
is already set raise `TriggerFailedError`, otherwise set it. -/
def trigger (s : CamerasState) : Except CamerasError Unit × CamerasState :=
  match raise_on_cameras_not_ready s with
  | .error e => (.error e, s)
  | .ok _ =>
    match get_pictures_available_event_by_light_type s.light_type with
    | .error e => (.error e, s)
    | .ok ev =>
      if event_is_set s ev then
        (.error .triggerFailed, s)
      else
        (.ok (), event_set s ev)

/-- A single picture with its metadata, as returned by
`CamerasController._get_picture`: the decoded pixel array (abstract id) and
the randomly drawn exposition time, diaphragm opening and ISO value. -/
structure SinglePicture where
  decoded_picture : Nat
  exposition_time : Rat
  diaphragm_opening : Rat
  iso_value : Nat
deriving DecidableEq, Repr

/-- Environment of a `CamerasController`: which backing image files exist
on disk (`filepath.is_file()` in `_create_picture_filepath`), the decoded
content of each file (`np.array(Image.open(filepath))`), and an oracle for
the random metadata draws of `_get_picture` (`choice(_ISOS)`,
`choice(_DIAPHRAGM_OPENINGS)`, `random_uniform` on the exposition-time
range, determinized per call site). -/
structure CamerasEnv where
  fileExists : LightType → CameraPosition → Bool
  decodedPicture : LightType → CameraPosition → Nat
  isoDraw : LightType → CameraPosition → Nat
  diaphragmDraw : LightType → CameraPosition → Rat
  expositionDraw : LightType → CameraPosition → Rat

/-- `CamerasController._create_picture_filepath`: builds the filepath from
`(camera_position, light_type)` and raises `PictureNotFoundError` when the
file does not exist; here the filepath is represented by its key. -/
def create_picture_filepath (env : CamerasEnv) (light_type : LightType)
    (camera_position : CameraPosition) :
    Except CamerasError (CameraPosition × LightType) :=
  if env.fileExists light_type camera_position then
    .ok (camera_position, light_type)
  else
    .error .pictureNotFound

/-- `CamerasController._get_picture`: filepath lookup (may raise
`PictureNotFoundError`), random metadata draws, decode the image. -/
def get_picture (env : CamerasEnv) (light_type : LightType)
    (camera_position : CameraPosition) : Except CamerasError SinglePicture :=
  match create_picture_filepath env light_type camera_position with
  | .error e => .error e
  | .ok fp =>
    .ok { decoded_picture := env.decodedPicture fp.2 fp.1
          exposition_time := env.expositionDraw light_type camera_position
          diaphragm_opening := env.diaphragmDraw light_type camera_position
          iso_value := env.isoDraw light_type camera_position }

/-- `CamerasController._get_pictures`: under the light-type lock, check the
requested light type's pictures-available event; if unset raise
`PicturesNotAvailableError`; otherwise load the LEFT then the RIGHT
picture (each may raise `PictureNotFoundError`), clear the event only
after both loads succeeded, and return the pair. -/
def get_pictures (env : CamerasEnv) (light_type : LightType) (s : CamerasState) :
    Except CamerasError (SinglePicture × SinglePicture) × CamerasState :=
  match get_pictures_available_event_by_light_type (some light_type) with
  | .error e => (.error e, s)
  | .ok ev =>
    if !(event_is_set s ev) then
      (.error .picturesNotAvailable, s)
    else
      match get_picture env light_type .LEFT with
      | .error e => (.error e, s)
      | .ok left_picture =>
        match get_picture env light_type .RIGHT with
        | .error e => (.error e, s)
        | .ok right_picture =>
          (.ok (left_picture, right_picture), event_clear s ev)

/-- `CamerasController.collect_pictures`: readiness gate, then
`_get_pictures` (the collecting sleep is abstracted). -/
def collect_pictures (env : CamerasEnv) (light_type : LightType)
    (s : CamerasState) :
    Except CamerasError (SinglePicture × SinglePicture) × CamerasState :=
  match raise_on_cameras_not_ready s with
  | .error e => (.error e, s)
  | .ok _ => get_pictures env light_type s

/-- `VelocitySensorService.SAMPLE_RATE` (`services/velocity.py`): 50 Hz. -/
def SAMPLE_RATE : Rat := 50

/-- `SurfaceMovementService.CAMERA_VERTICAL_FIELD_OF_VIEW`: 25 cm. -/
def CAMERA_VERTICAL_FIELD_OF_VIEW : Rat := 25

/-- `SurfaceMovementService.DISPLACEMENT_THRESHOLD`:
`CAMERA_VERTICAL_FIELD_OF_VIEW * 0.9` cm. -/
def DISPLACEMENT_THRESHOLD : Rat := CAMERA_VERTICAL_FIELD_OF_VIEW * 0.9

/-- `SurfaceMovementService.MOVING_AVERAGE_FILTER_WINDOW_SIZE`: 3. -/
def MOVING_AVERAGE_FILTER_WINDOW_SIZE : Nat := 3

/-- `np.mean` of a list (arithmetic mean). -/
def npMean (data : List Rat) : Rat := data.sum / data.length

/-- `np.percentile(data, q)` with the default linear interpolation: sort the
data ascending, take the fractional position `h = (n - 1) * q / 100` and
interpolate linearly between the two adjacent order statistics. -/
def npPercentile (data : List Rat) (q : Rat) : Rat :=
  let sorted := data.insertionSort (· ≤ ·)
  let h : Rat := ((data.length - 1 : Nat) : Rat) * q / 100
  let i : Nat := h.floor.toNat
  let lo := sorted.getD i 0
  let hi := sorted.getD (i + 1) lo
  lo + (h - (i : Rat)) * (hi - lo)

/-- `SurfaceMovementService.__filter_outliers_iqr`: quartiles of the input,
`iqr = q3 - q1`, keep exactly the values strictly between
`q1 - 1.5 * iqr` and `q3 + 1.5 * iqr`. -/
def filter_outliers_iqr (data : List Rat) : List Rat :=
  let q1 := npPercentile data 25
  let q3 := npPercentile data 75
  let iqr := q3 - q1
  let lower_bound := q1 - 1.5 * iqr
  let upper_bound := q3 + 1.5 * iqr
  data.filter (fun value => lower_bound < value ∧ value < upper_bound)

/-- `pandas.Series(data).rolling(window=w).mean()` entry by entry: position
`i` holds the mean of the window `data[i - w + 1 .. i]` when the window is
fully populated (`w ≤ i + 1`) and NaN (`none`) otherwise. -/
def rollingMean (w : Nat) (data : List Rat) : List (Option Rat) :=
  (List.range data.length).map fun i =>
    if w ≤ i + 1 then some (npMean ((data.drop (i + 1 - w)).take w)) else none

/-- `SurfaceMovementService.__filter_moving_average`: rolling mean with
window `MOVING_AVERAGE_FILTER_WINDOW_SIZE`, then the positional slice
`moving_average[window_size:]` (drops the first `window_size` positions of
the series), then `.tolist()` (every surviving position is a fully
populated window, so no NaN remains). -/
def filter_moving_average (data : List Rat) : List Rat :=
  ((rollingMean MOVING_AVERAGE_FILTER_WINDOW_SIZE data).drop
      MOVING_AVERAGE_FILTER_WINDOW_SIZE).filterMap id

/-- `SurfaceMovementService.get_clean_velocity_data`: the drained queue
contents are the raw velocities; on an empty queue return `([], 0)`,
otherwise IQR outlier filter then moving-average filter, paired with the
raw sample count. -/
def get_clean_velocity_data (raw_velocities : List Rat) : List Rat × Nat :=
  let samples := raw_velocities.length
  if samples = 0 then ([], 0)
  else (filter_moving_average (filter_outliers_iqr raw_velocities), samples)

/-- `SurfaceMovementService.measure_velocity`: `0.0` on an empty list,
otherwise `np.mean`. -/
def measure_velocity (velocities : List Rat) : Rat :=
  if velocities = [] then 0 else npMean velocities

/-- `SurfaceMovementService.measure_displacement`:
`velocity * (samples / SAMPLE_RATE / 60)`. -/
def measure_displacement (velocity : Rat) (samples : Nat) : Rat :=
  let time_ : Rat := (samples : Rat) / SAMPLE_RATE / 60
  velocity * time_

/-- The displacement-accumulator step of `SurfaceMovementService.run`:
subtract the cycle's displacement from `displacement_to_threshold`; when the
result is `≤ 0` the capture-due event fires (`surface_queue.put`) and the
full threshold is added back; otherwise no event fires.  Returns
(capture due, new remainder). -/
def displacement_step (displacement_to_threshold displacement : Rat) :
    Bool × Rat :=
  let r := displacement_to_threshold - displacement
  if r ≤ 0 then (true, r + DISPLACEMENT_THRESHOLD) else (false, r)

/-- One step of the capture-driving client restricted to a single light
condition (the per-condition operations of `PicturesBatchService`):
select that condition, trigger, or collect it.  On failure the state at the
raise point is kept, as in the Python code. -/
inductive CamOp where
  | selectOp
  | triggerOp
  | collectOp
deriving DecidableEq, Repr

/-- Interpret one operation on condition `lt`, keeping the resulting
synchronizer state. -/
def run_op (env : CamerasEnv) (lt : LightType) (s : CamerasState) :
    CamOp → CamerasState
  | .selectOp => (set_light_type lt s).2
  | .triggerOp => (trigger s).2
  | .collectOp => (collect_pictures env lt s).2

/-- Interpret a sequence of operations on condition `lt`. -/
def run_ops (env : CamerasEnv) (lt : LightType) (ops : List CamOp)
    (s : CamerasState) : CamerasState :=
  ops.foldl (run_op env lt) s

/-- A concrete ready synchronizer state with GREEN selected and no pending
exposure, used as witness input. -/
def ready_green_state : CamerasState :=
  { cameras_ready := true
    light_type := some .GREEN
    green_pictures_available := false
    blue_pictures_available := false }

/-- A concrete camera environment in which every backing image file exists,
used as witness input. -/
def test_env : CamerasEnv :=
  { fileExists := fun _ _ => true
    decodedPicture := fun _ _ => 0
    isoDraw := fun _ _ => 0
    diaphragmDraw := fun _ _ => 0
    expositionDraw := fun _ _ => 0 }

/-! Helper lemmas. -/

/-- The event lookup never fails on a present light type. -/
theorem get_event_some (lt : LightType) :
    get_pictures_available_event_by_light_type (some lt) = .ok lt := by
  cases lt <;> rfl

/-- Clearing a light type's event makes its flag false. -/
theorem event_is_set_clear (s : CamerasState) (lt : LightType) :
    event_is_set (event_clear s lt) lt = false := by
  cases lt <;> simp [event_is_set, event_clear]

/-- Setting a light type's event makes its flag true. -/
theorem event_is_set_set (s : CamerasState) (lt : LightType) :
    event_is_set (event_set s lt) lt = true := by
  cases lt <;> simp [event_is_set, event_set]

/-- Setting an event does not touch the readiness flag. -/
theorem event_set_ready (s : CamerasState) (lt : LightType) :
    (event_set s lt).cameras_ready = s.cameras_ready := by
  cases lt <;> rfl

/-- Setting an event does not touch the selected light type. -/
theorem event_set_light (s : CamerasState) (lt : LightType) :
    (event_set s lt).light_type = s.light_type := by
  cases lt <;> rfl

/-- Clearing an event does not touch the selected light type. -/
theorem event_clear_light (s : CamerasState) (lt : LightType) :
    (event_clear s lt).light_type = s.light_type := by
  cases lt <;> rfl

/-- Setting one light type's event leaves the other light type's flag
unchanged. -/
theorem event_is_set_set_other (s : CamerasState) (a b : LightType)
    (h : a ≠ b) : event_is_set (event_set s a) b = event_is_set s b := by
  cases a <;> cases b <;> simp_all [event_is_set, event_set]

/-- Clearing one light type's event leaves the other light type's flag
unchanged. -/
theorem event_is_set_clear_other (s : CamerasState) (a b : LightType)
    (h : a ≠ b) : event_is_set (event_clear s a) b = event_is_set s b := by
  cases a <;> cases b <;> simp_all [event_is_set, event_clear]

/-- The state left by `set_light_type` is either untouched (failure) or the
light-type-only update. -/
theorem set_light_type_snd_cases (lt : LightType) (s : CamerasState) :
    (set_light_type lt s).2 = s ∨
    (set_light_type lt s).2 = { s with light_type := some lt } := by
  unfold set_light_type
  cases raise_on_cameras_not_ready s <;> simp

/-- The state left by `trigger` when `lt` is the selected light type is
either untouched (failure) or has `lt`'s event set. -/
theorem trigger_snd_of_selected (s : CamerasState) (lt : LightType)
    (hsel : s.light_type = some lt) :
    (trigger s).2 = s ∨ (trigger s).2 = event_set s lt := by
  unfold trigger
  cases raise_on_cameras_not_ready s
  · simp
  · rw [hsel, get_event_some]
    by_cases hf : event_is_set s lt = true <;> simp [hf]

/-- The state left by `collect_pictures` is either untouched (failure) or
has the requested light type's event cleared. -/
theorem collect_snd_cases (env : CamerasEnv) (lt : LightType) (s : CamerasState) :
    (collect_pictures env lt s).2 = s ∨
    (collect_pictures env lt s).2 = event_clear s lt := by
  unfold collect_pictures get_pictures
  cases raise_on_cameras_not_ready s
  · simp
  · rw [get_event_some]
    by_cases hf : event_is_set s lt = true
    · cases get_picture env lt .LEFT
      · simp [hf]
      · cases get_picture env lt .RIGHT <;> simp [hf]
    · simp [hf]

/-! Helper lemmas (arithmetic side). -/

/-- `filterMap id` keeps the length of a list of options in which every
entry is `some`. -/
theorem length_filterMap_id_of_isSome {α : Type} (l : List (Option α))
    (h : ∀ x ∈ l, x.isSome = true) : (l.filterMap id).length = l.length := by
  induction l with
  | nil => simp
  | cons a t ih =>
    cases a with
    | none => simpa using h none (by simp)
    | some b =>
      simp only [List.filterMap_cons, id, List.length_cons]
      rw [ih fun x hx => h x (by simp [hx])]

/-- Evaluation rule for `Rat.floor ∘ Int.toNat` used by the percentile
computations: a rational in `[n, n + 1)` has floor `n`. -/
theorem rat_floor_toNat_eq (q : Rat) (n : Nat) (h1 : (n : Rat) ≤ q)
    (h2 : q < (n : Rat) + 1) : q.floor.toNat = n := by
  have hfl : q.floor = ⌊q⌋ := by rw [Rat.floor_def, Rat.floor_def']
  have hz : ⌊q⌋ = (n : Int) := by
    rw [Int.floor_eq_iff]
    constructor
    · exact_mod_cast h1
    · push_cast
      exact h2
  rw [hfl, hz]
  omega

/-- Length of the rolling-mean series equals the input length. -/
theorem rollingMean_length (w : Nat) (data : List Rat) :
    (rollingMean w data).length = data.length := by
  simp [rollingMean]

/-- Entry `i` of the rolling-mean series. -/
theorem rollingMean_getElem (w : Nat) (data : List Rat) (i : Nat)
    (h : i < (rollingMean w data).length) :
    (rollingMean w data)[i] =
      if w ≤ i + 1 then some (npMean ((data.drop (i + 1 - w)).take w)) else none := by
  simp [rollingMean]

/-- Concrete evaluation: first quartile of `[1, 2, 3, 100]` under
`np.percentile` linear interpolation. -/
theorem npPercentile_q1_eval : npPercentile [1, 2, 3, 100] 25 = 7 / 4 := by
  have h0 : ((3 : Rat) / 4).floor.toNat = 0 := by
    apply rat_floor_toNat_eq <;> norm_num
  norm_num [npPercentile, List.insertionSort, List.orderedInsert, h0]

/-- Concrete evaluation: third quartile of `[1, 2, 3, 100]`. -/
theorem npPercentile_q3_eval : npPercentile [1, 2, 3, 100] 75 = 109 / 4 := by
  have h2 : ((9 : Rat) / 4).floor.toNat = 2 := by
    apply rat_floor_toNat_eq <;> norm_num
  norm_num [npPercentile, List.insertionSort, List.orderedInsert, h2]

/-- Concrete evaluation of the IQR outlier filter: `100` is rejected. -/
theorem filter_outliers_eval : filter_outliers_iqr [1, 2, 3, 100] = [1, 2, 3] := by
  norm_num [filter_outliers_iqr, npPercentile_q1_eval, npPercentile_q3_eval, List.filter]

/-! Claim theorems. -/

/-- C3 (counterexample): the claim that for a filtered input of length
`n ≥ 2` the smoothed output has `n - 2` values fails at the input
`[1, 2, 3]`: the slice `moving_average[window_size:]` drops the first
`3` positions (not `windowSize - 1 = 2`), so the output is empty where the
claim demands one value. -/
theorem moving_average_length_counterexample :
    (filter_moving_average [1, 2, 3]).length ≠ [1, 2, 3].length - 2 := by
  decide

/-- C3 (amended): `__filter_moving_average` drops the first
`windowSize = 3` positions of the rolling series — the two partial windows
and also the first fully-populated window — so for an input of length `n`
the smoothed output has `n - 3` values (truncated at 0). -/
theorem moving_average_output_length (data : List Rat) :
    (filter_moving_average data).length = data.length - 3 := by
  have hall : ∀ x ∈ (rollingMean 3 data).drop 3, x.isSome = true := by
    intro x hx
    rw [List.mem_iff_getElem] at hx
    obtain ⟨k, hk, hget⟩ := hx
    rw [List.getElem_drop, rollingMean_getElem, if_pos (by omega)] at hget
    rw [← hget]
    rfl
  have h1 : filter_moving_average data = ((rollingMean 3 data).drop 3).filterMap id := rfl
  rw [h1, length_filterMap_id_of_isSome _ hall, List.length_drop, rollingMean_length]

/-- C6: the displacement threshold is `22.5 = 0.9 * 25` cm; one cycle of
displacement `30` starting from remainder `22.5` fires the capture-due
event and leaves remainder `15`; in general whenever
`remainder - displacement ≤ 0` the event fires and the full threshold is
added back, carrying the overshoot forward. -/
theorem displacement_overshoot_carried (r d : Rat) (h : r - d ≤ 0) :
    DISPLACEMENT_THRESHOLD = 22.5 ∧
    displacement_step 22.5 30 = (true, 15) ∧
    displacement_step r d = (true, r - d + DISPLACEMENT_THRESHOLD) := by
  refine ⟨by norm_num [DISPLACEMENT_THRESHOLD, CAMERA_VERTICAL_FIELD_OF_VIEW], ?_, ?_⟩
  · simp only [displacement_step]
    norm_num [DISPLACEMENT_THRESHOLD, CAMERA_VERTICAL_FIELD_OF_VIEW]
  · simp only [displacement_step]
    rw [if_pos h]

/-- Witness for C6 at remainder `22.5`, displacement `30`. -/
theorem displacement_overshoot_carried_witness :
    DISPLACEMENT_THRESHOLD = 22.5 ∧
    displacement_step 22.5 30 = (true, 15) ∧
    displacement_step 22.5 30 = (true, 22.5 - 30 + DISPLACEMENT_THRESHOLD) :=
  displacement_overshoot_carried 22.5 30 (by norm_num)

/-- C7: every value retained by `__filter_outliers_iqr` lies strictly
inside `[Q1 - 1.5 * IQR, Q3 + 1.5 * IQR]`, with the quartiles computed from
the original (unfiltered) sequence. -/
theorem iqr_filter_strictly_within_bounds (data : List Rat) (hne : data ≠ [])
    (value : Rat) (hmem : value ∈ filter_outliers_iqr data) :
    npPercentile data 25 - 1.5 * (npPercentile data 75 - npPercentile data 25) < value ∧
    value < npPercentile data 75 + 1.5 * (npPercentile data 75 - npPercentile data 25) := by
  simp only [filter_outliers_iqr, List.mem_filter, decide_eq_true_eq] at hmem
  exact hmem.2

/-- Witness for C7 at the data `[1, 2, 3, 100]` and the retained value `2`. -/
theorem iqr_filter_strictly_within_bounds_witness :
    npPercentile [1, 2, 3, 100] 25 -
        1.5 * (npPercentile [1, 2, 3, 100] 75 - npPercentile [1, 2, 3, 100] 25) < 2 ∧
    (2 : Rat) < npPercentile [1, 2, 3, 100] 75 +
        1.5 * (npPercentile [1, 2, 3, 100] 75 - npPercentile [1, 2, 3, 100] 25) :=
  iqr_filter_strictly_within_bounds [1, 2, 3, 100] (by simp) 2
    (by rw [filter_outliers_eval]; norm_num)

/-- C8: on an empty raw sample set, the conditioning stage returns the pair
`([], 0)` and the representative velocity is `0.0`. -/
theorem condition_empty_returns_zero :
    get_clean_velocity_data [] = ([], 0) ∧ measure_velocity [] = 0 :=
  ⟨rfl, rfl⟩

/-- C9: `measure_displacement` equals `velocity * (samples / 50 / 60)` with
the fixed 50 Hz sample rate; in particular
`measure_displacement 50 100 = 50 * (100 / 50 / 60) = 5 / 3`. -/
theorem measure_displacement_formula (velocity : Rat) (samples : Nat) :
    measure_displacement velocity samples = velocity * ((samples : Rat) / 50 / 60) ∧
    SAMPLE_RATE = 50 ∧
    measure_displacement 50 100 = 50 * ((100 : Rat) / 50 / 60) ∧
    measure_displacement 50 100 = 5 / 3 := by
  refine ⟨rfl, rfl, ?_, ?_⟩ <;> norm_num [measure_displacement, SAMPLE_RATE]

/-- C1: with the cameras ready, a condition selected and no pending
exposure, the first `trigger()` succeeds and sets the condition's pending
flag; a second `trigger()` before the matching collect fails with
`TriggerFailedError` and leaves the flag set and the state unchanged. -/
theorem trigger_consumable (s : CamerasState) (c : LightType)
    (hready : s.cameras_ready = true) (hsel : s.light_type = some c)
    (hflag : event_is_set s c = false) :
    trigger s = (.ok (), event_set s c) ∧
    event_is_set (event_set s c) c = true ∧
    trigger (event_set s c) = (.error .triggerFailed, event_set s c) := by
  have hok : raise_on_cameras_not_ready s = .ok () := by
    simp [raise_on_cameras_not_ready, hready]
  have hok2 : raise_on_cameras_not_ready (event_set s c) = .ok () := by
    simp [raise_on_cameras_not_ready, event_set_ready, hready]
  have hsel2 : (event_set s c).light_type = some c := by
    rw [event_set_light, hsel]
  refine ⟨?_, event_is_set_set s c, ?_⟩
  · simp [trigger, hok, hsel, get_event_some, hflag]
  · simp [trigger, hok2, hsel2, get_event_some, event_is_set_set]

/-- Witness for C1 at the ready state with GREEN selected. -/
theorem trigger_consumable_witness :
    trigger ready_green_state = (.ok (), event_set ready_green_state .GREEN) ∧
    event_is_set (event_set ready_green_state .GREEN) .GREEN = true ∧
    trigger (event_set ready_green_state .GREEN) =
      (.error .triggerFailed, event_set ready_green_state .GREEN) :=
  trigger_consumable ready_green_state .GREEN rfl rfl rfl

/-- C2: with the cameras ready, `collect_pictures` fails with
`PicturesNotAvailableError` exactly when the condition's pending flag is
false; when the flag is set and both backing images exist, it returns the
exposure pair built from the environment and leaves the flag false. -/
theorem collect_fails_iff_not_pending (env : CamerasEnv) (lt : LightType)
    (s : CamerasState) (hready : s.cameras_ready = true) :
    ((collect_pictures env lt s).1 = .error .picturesNotAvailable ↔
      event_is_set s lt = false) ∧
    (event_is_set s lt = true → env.fileExists lt .LEFT = true →
      env.fileExists lt .RIGHT = true →
      collect_pictures env lt s =
        (.ok ({ decoded_picture := env.decodedPicture lt .LEFT
                exposition_time := env.expositionDraw lt .LEFT
                diaphragm_opening := env.diaphragmDraw lt .LEFT
                iso_value := env.isoDraw lt .LEFT },
              { decoded_picture := env.decodedPicture lt .RIGHT
                exposition_time := env.expositionDraw lt .RIGHT
                diaphragm_opening := env.diaphragmDraw lt .RIGHT
                iso_value := env.isoDraw lt .RIGHT }),
         event_clear s lt) ∧
      event_is_set (event_clear s lt) lt = false) := by
  have hok : raise_on_cameras_not_ready s = .ok () := by
    simp [raise_on_cameras_not_ready, hready]
  constructor
  · cases hflag : event_is_set s lt
    · simp [collect_pictures, hok, get_pictures, get_event_some, hflag]
    · cases hL : env.fileExists lt .LEFT
      · simp [collect_pictures, hok, get_pictures, get_event_some, hflag,
          get_picture, create_picture_filepath, hL]
      · cases hR : env.fileExists lt .RIGHT
        · simp [collect_pictures, hok, get_pictures, get_event_some, hflag,
            get_picture, create_picture_filepath, hL, hR]
        · simp [collect_pictures, hok, get_pictures, get_event_some, hflag,
            get_picture, create_picture_filepath, hL, hR]
  · intro hflag hL hR
    refine ⟨?_, event_is_set_clear s lt⟩
    simp [collect_pictures, hok, get_pictures, get_event_some, hflag,
      get_picture, create_picture_filepath, hL, hR]

/-- Witness for C2 at the ready state with GREEN pending and all files
present. -/
theorem collect_fails_iff_not_pending_witness :
    ((collect_pictures test_env .GREEN (event_set ready_green_state .GREEN)).1 =
        .error .picturesNotAvailable ↔
      event_is_set (event_set ready_green_state .GREEN) .GREEN = false) ∧
    (event_is_set (event_set ready_green_state .GREEN) .GREEN = true →
      test_env.fileExists .GREEN .LEFT = true →
      test_env.fileExists .GREEN .RIGHT = true →
      collect_pictures test_env .GREEN (event_set ready_green_state .GREEN) =
        (.ok ({ decoded_picture := test_env.decodedPicture .GREEN .LEFT
                exposition_time := test_env.expositionDraw .GREEN .LEFT
                diaphragm_opening := test_env.diaphragmDraw .GREEN .LEFT
                iso_value := test_env.isoDraw .GREEN .LEFT },
              { decoded_picture := test_env.decodedPicture .GREEN .RIGHT
                exposition_time := test_env.expositionDraw .GREEN .RIGHT
                diaphragm_opening := test_env.diaphragmDraw .GREEN .RIGHT
                iso_value := test_env.isoDraw .GREEN .RIGHT }),
         event_clear (event_set ready_green_state .GREEN) .GREEN) ∧
      event_is_set (event_clear (event_set ready_green_state .GREEN) .GREEN) .GREEN =
        false) :=
  collect_fails_iff_not_pending test_env .GREEN (event_set ready_green_state .GREEN) rfl

/-- C4: any sequence of select/trigger/collect operations on condition `a`
never changes condition `b`'s pending flag, for `a ≠ b`. -/
theorem cross_condition_independence (env : CamerasEnv) (a b : LightType)
    (hab : a ≠ b) (ops : List CamOp) (s : CamerasState)
    (hsel : s.light_type = some a) :
    event_is_set (run_ops env a ops s) b = event_is_set s b := by
  induction ops generalizing s with
  | nil => rfl
  | cons op rest ih =>
    have hstep : event_is_set (run_op env a s op) b = event_is_set s b ∧
        (run_op env a s op).light_type = some a := by
      cases op with
      | selectOp =>
        rcases set_light_type_snd_cases a s with h | h <;>
          simp [run_op, h, event_is_set, hsel]
      | triggerOp =>
        rcases trigger_snd_of_selected s a hsel with h | h
        · simp [run_op, h, hsel]
        · exact ⟨by rw [run_op, h, event_is_set_set_other s a b hab],
            by rw [run_op, h, event_set_light, hsel]⟩
      | collectOp =>
        rcases collect_snd_cases env a s with h | h
        · simp [run_op, h, hsel]
        · exact ⟨by rw [run_op, h, event_is_set_clear_other s a b hab],
            by rw [run_op, h, event_clear_light, hsel]⟩
    have hrun : run_ops env a (op :: rest) s = run_ops env a rest (run_op env a s op) := rfl
    rw [hrun, ih (run_op env a s op) hstep.2, hstep.1]

/-- Witness for C4: a full select/trigger/collect cycle on GREEN leaves
BLUE's flag unchanged. -/
theorem cross_condition_independence_witness :
    event_is_set
      (run_ops test_env .GREEN [.selectOp, .triggerOp, .collectOp] ready_green_state)
      .BLUE = event_is_set ready_green_state .BLUE :=
  cross_condition_independence test_env .GREEN .BLUE (by decide)
    [.selectOp, .triggerOp, .collectOp] ready_green_state rfl

/-- C5: before `open_cameras()` every synchronizer operation fails with
`CamerasNotReadyError` and leaves the state unchanged; after
`open_cameras()` the readiness check passes. -/
theorem readiness_gate (env : CamerasEnv) (lt : LightType) (s : CamerasState)
    (hnr : s.cameras_ready = false) :
    set_light_type lt s = (.error .camerasNotReady, s) ∧
    trigger s = (.error .camerasNotReady, s) ∧
    collect_pictures env lt s = (.error .camerasNotReady, s) ∧
    raise_on_cameras_not_ready (open_cameras s) = .ok () := by
  have hr : raise_on_cameras_not_ready s = .error .camerasNotReady := by
    simp [raise_on_cameras_not_ready, hnr]
  exact ⟨by simp [set_light_type, hr], by simp [trigger, hr],
    by simp [collect_pictures, hr], by simp [raise_on_cameras_not_ready, open_cameras]⟩

/-- Witness for C5 at the freshly constructed controller state. -/
theorem readiness_gate_witness :
    set_light_type .GREEN CamerasState.init =
      (.error .camerasNotReady, CamerasState.init) ∧
    trigger CamerasState.init = (.error .camerasNotReady, CamerasState.init) ∧
    collect_pictures test_env .GREEN CamerasState.init =
      (.error .camerasNotReady, CamerasState.init) ∧
    raise_on_cameras_not_ready (open_cameras CamerasState.init) = .ok () :=
  readiness_gate test_env .GREEN CamerasState.init rfl

/-- C10: with the cameras ready and a pending exposure for `lt`, if a
backing image file is missing then `collect_pictures` fails with
`PictureNotFoundError`, the state is unchanged and the pending flag stays
set (it is cleared only after both images load). -/
theorem collect_missing_picture_preserves_flag (env : CamerasEnv)
    (lt : LightType) (s : CamerasState) (hready : s.cameras_ready = true)
    (hflag : event_is_set s lt = true)
    (hmiss : env.fileExists lt .LEFT = false ∨ env.fileExists lt .RIGHT = false) :
    (collect_pictures env lt s).1 = .error .pictureNotFound ∧
    (collect_pictures env lt s).2 = s ∧
    event_is_set (collect_pictures env lt s).2 lt = true := by
  have hok : raise_on_cameras_not_ready s = .ok () := by
    simp [raise_on_cameras_not_ready, hready]
  have h1 : (collect_pictures env lt s).1 = .error .pictureNotFound ∧
      (collect_pictures env lt s).2 = s := by
    rcases hmiss with hL | hR
    · constructor <;>
        simp [collect_pictures, hok, get_pictures, get_event_some, hflag,
          get_picture, create_picture_filepath, hL]
    · cases hL : env.fileExists lt .LEFT <;> constructor <;>
        simp [collect_pictures, hok, get_pictures, get_event_some, hflag,
          get_picture, create_picture_filepath, hL, hR]
  exact ⟨h1.1, h1.2, by rw [h1.2]; exact hflag⟩

/-- Witness for C10: GREEN pending, GREEN LEFT image missing. -/
theorem collect_missing_picture_preserves_flag_witness :
    (collect_pictures
        { test_env with fileExists := fun _ pos => pos = CameraPosition.RIGHT }
        .GREEN (event_set ready_green_state .GREEN)).1 = .error .pictureNotFound ∧
    (collect_pictures
        { test_env with fileExists := fun _ pos => pos = CameraPosition.RIGHT }
        .GREEN (event_set ready_green_state .GREEN)).2 =
      event_set ready_green_state .GREEN ∧
    event_is_set
      (collect_pictures
        { test_env with fileExists := fun _ pos => pos = CameraPosition.RIGHT }
        .GREEN (event_set ready_green_state .GREEN)).2 .GREEN = true :=
  collect_missing_picture_preserves_flag
    { test_env with fileExists := fun _ pos => pos = CameraPosition.RIGHT }
    .GREEN (event_set ready_green_state .GREEN) rfl rfl (Or.inl (by decide))

end Weaving
